import Mathlib

/-!
Verification development for the SOAP → Pre-Op report generator (src/app.py).

Python strings are modelled as `List Char`.  The subset of Python `re` that the
program uses (literals, character classes, greedy and lazy quantifiers over
single-character classes, bounded repetition, alternation, optional groups,
capturing groups, word boundaries, anchors, IGNORECASE and MULTILINE) is given
a backtracking matcher with Python's leftmost / backtracking-priority
semantics.  The program's patterns contain `.` only outside DOTALL scopes, so
`.` is encoded as the class of non-newline characters and the DOTALL flag
needs no separate treatment.  Numeric values (Python float) are modelled as
rationals; Python's `round` (banker's rounding) and floor division / modulo
(which agree with Euclidean division for the positive divisors used) are
modelled explicitly.
-/

abbrev Str := List Char

def sl (s : String) : Str := s.toList

/-- Python whitespace (`str.isspace`, also the set matched by the regex
class `\s` for `str` patterns). -/
def pyIsSpace (c : Char) : Bool :=
  (0x9 ≤ c.val && c.val ≤ 0xd) || (0x1c ≤ c.val && c.val ≤ 0x1f) ||
  c = ' ' || c.val = 0x85 || c.val = 0xa0 || c.val = 0x1680 ||
  (0x2000 ≤ c.val && c.val ≤ 0x200a) || c.val = 0x2028 || c.val = 0x2029 ||
  c.val = 0x202f || c.val = 0x205f || c.val = 0x3000

/-- Line boundaries of Python `str.splitlines` (besides `\r\n`). -/
def pyIsLineBreak (c : Char) : Bool :=
  c = '\n' || c = '\r' || c.val = 0xb || c.val = 0xc ||
  (0x1c ≤ c.val && c.val ≤ 0x1e) || c.val = 0x85 ||
  c.val = 0x2028 || c.val = 0x2029

/-- ASCII lowercasing (the program only compares ASCII text caselessly). -/
def pyLowerC (c : Char) : Char :=
  if 'A' ≤ c && c ≤ 'Z' then Char.ofNat (c.toNat + 32) else c

def pyUpperC (c : Char) : Char :=
  if 'a' ≤ c && c ≤ 'z' then Char.ofNat (c.toNat - 32) else c

/-- Regex `\w`: ASCII alphanumerics, underscore, and Latin-1 letters (the only
non-ASCII characters appearing in the program's data are U+00E2, a letter, and
U+20AC / U+00A2 / U+00A0, which are not word characters). -/
def isWordChar (c : Char) : Bool :=
  c.isAlphanum || c = '_' ||
  (0xc0 ≤ c.val && c.val ≤ 0xff && c.val ≠ 0xd7 && c.val ≠ 0xf7)

/-- Python `str.lstrip()`. -/
def pyLstrip (s : Str) : Str := s.dropWhile pyIsSpace

/-- Python `str.rstrip()`. -/
def pyRstrip (s : Str) : Str := (s.reverse.dropWhile pyIsSpace).reverse

/-- Python `str.strip()`. -/
def pyStrip (s : Str) : Str := pyRstrip (pyLstrip s)

/-- Python `str.splitlines` body; `acc` is the current line reversed. -/
def slGo (acc : Str) : Str → List Str
  | [] => [acc.reverse]
  | '\r' :: rest =>
    match rest with
    | '\n' :: t => acc.reverse :: (if t.isEmpty then [] else slGo [] t)
    | t => acc.reverse :: (if t.isEmpty then [] else slGo [] t)
  | c :: t =>
    if pyIsLineBreak c then acc.reverse :: (if t.isEmpty then [] else slGo [] t)
    else slGo (c :: acc) t

/-- Python `str.splitlines()`. -/
def pySplitlines (s : Str) : List Str :=
  if s.isEmpty then [] else slGo [] s

/-- Python `str.startswith(pat)`. -/
def lstarts : Str → Str → Bool
  | [], _ => true
  | _ :: _, [] => false
  | p :: ps, c :: cs => p = c && lstarts ps cs

/-- Python `needle in hay` (substring containment). -/
def containsSub (needle : Str) : Str → Bool
  | [] => needle.isEmpty
  | c :: t => lstarts needle (c :: t) || containsSub needle t

/-- Python `str.replace(old, new)` body, with structural fuel.  Fuel
`s.length` suffices: every step consumes at least one character (`old` is
non-empty whenever the guard fires). -/
def pyReplaceGo (old nw : Str) : Nat → Str → Str
  | 0, s => s
  | _ + 1, [] => []
  | fuel + 1, c :: t =>
    if old ≠ [] && lstarts old (c :: t) then
      nw ++ pyReplaceGo old nw fuel ((c :: t).drop old.length)
    else
      c :: pyReplaceGo old nw fuel t

/-- Python `str.replace(old, new)` (all non-overlapping occurrences, left to
right; `old` is non-empty at every call site). -/
def pyReplace (old nw s : Str) : Str := pyReplaceGo old nw s.length s

/-- Decimal-literal parsing (`float(txt)` on text matched by
`[0-9]+(\.[0-9]+)?`, which cannot fail there). -/
def parseDecQ (s : Str) : ℚ :=
  let intPart := s.takeWhile (·.isDigit)
  let rest := s.dropWhile (·.isDigit)
  let frac := (rest.drop 1).takeWhile (·.isDigit)
  let iv : ℚ := intPart.foldl (fun a c => a * 10 + (c.toNat - '0'.toNat)) 0
  let fv : ℚ := frac.foldl (fun a c => a * 10 + (c.toNat - '0'.toNat)) 0
  iv + fv / (10 ^ frac.length)

-- -------------------------
-- Regex engine
-- -------------------------

structure RFlags where
  ic : Bool
  ml : Bool
deriving DecidableEq

def noFl : RFlags := ⟨false, false⟩
def icFl : RFlags := ⟨true, false⟩
def icmlFl : RFlags := ⟨true, true⟩

/-- Regex AST covering exactly the constructs of the program's patterns.
Quantifiers apply only to single-character classes (true of every pattern in
the source).  `.` is encoded as `cls (· ≠ '\n')`. -/
inductive Re where
  | eps : Re
  | lit : Char → Re
  | cls : (Char → Bool) → Re
  | seq : Re → Re → Re
  | alt : Re → Re → Re
  | opt : Re → Re
  | grp : Nat → Re → Re
  | star : (Char → Bool) → Re
  | plus : (Char → Bool) → Re
  | lazyplus : (Char → Bool) → Re
  | rep : (Char → Bool) → Nat → Nat → Re
  | wordb : Re
  | bol : Re
  | eol : Re
  | eos : Re

def cat (l : List Re) : Re := l.foldr Re.seq Re.eps

def strRe (s : String) : Re := cat (s.toList.map Re.lit)

/-- Literal match under flags (IGNORECASE compares ASCII-lowercased). -/
def litM (fl : RFlags) (a c : Char) : Bool :=
  a = c || (fl.ic && pyLowerC a = pyLowerC c)

/-- Class match under flags (Python ignores case by also testing the
case-swapped character). -/
def clsM (fl : RFlags) (p : Char → Bool) (c : Char) : Bool :=
  p c || (fl.ic && (p (pyLowerC c) || p (pyUpperC c)))

abbrev Caps := List (Nat × Str)
abbrev MRes := Caps × Str × Str

/-- Greedy class star: consume as much as possible, backtracking into `k`. -/
def starG (fl : RFlags) (p : Char → Bool) (lf : Str) :
    Str → (Str → Str → Option MRes) → Option MRes
  | [], k => k lf []
  | c :: rt, k =>
    if clsM fl p c then
      match starG fl p (c :: lf) rt k with
      | some r => some r
      | none => k lf (c :: rt)
    else k lf (c :: rt)

/-- One-or-more lazy class repetition after the first mandatory character:
try `k` before consuming more. -/
def lazyGo (fl : RFlags) (p : Char → Bool) (lf : Str) (rt : Str)
    (k : Str → Str → Option MRes) : Option MRes :=
  match k lf rt with
  | some r => some r
  | none =>
    match rt with
    | [] => none
    | c :: rt' => if clsM fl p c then lazyGo fl p (c :: lf) rt' k else none

/-- Greedy bounded class repetition (at least `lo` more, at most `hi` more). -/
def repG (fl : RFlags) (p : Char → Bool) : Nat → Nat → Str → Str →
    (Str → Str → Option MRes) → Option MRes
  | lo, 0, lf, rt, k => if lo = 0 then k lf rt else none
  | lo, hi + 1, lf, rt, k =>
    match rt with
    | [] => if lo = 0 then k lf rt else none
    | c :: rt' =>
      if clsM fl p c then
        match repG fl p (lo - 1) hi (c :: lf) rt' k with
        | some r => some r
        | none => if lo = 0 then k lf (c :: rt') else none
      else if lo = 0 then k lf (c :: rt') else none

/-- Backtracking matcher at a fixed position.  The text is a zipper:
`lf` is the already-passed text reversed, `rt` the rest. -/
def mtch (fl : RFlags) : Re → Str → Str → Caps →
    (Caps → Str → Str → Option MRes) → Option MRes
  | .eps, lf, rt, cs, k => k cs lf rt
  | .lit a, lf, rt, cs, k =>
    match rt with
    | c :: rt' => if litM fl a c then k cs (c :: lf) rt' else none
    | [] => none
  | .cls p, lf, rt, cs, k =>
    match rt with
    | c :: rt' => if clsM fl p c then k cs (c :: lf) rt' else none
    | [] => none
  | .seq a b, lf, rt, cs, k =>
    mtch fl a lf rt cs (fun cs' lf' rt' => mtch fl b lf' rt' cs' k)
  | .alt a b, lf, rt, cs, k =>
    match mtch fl a lf rt cs k with
    | some r => some r
    | none => mtch fl b lf rt cs k
  | .opt a, lf, rt, cs, k =>
    match mtch fl a lf rt cs k with
    | some r => some r
    | none => k cs lf rt
  | .grp i a, lf, rt, cs, k =>
    mtch fl a lf rt cs (fun cs' lf' rt' =>
      k ((i, (lf'.take (lf'.length - lf.length)).reverse) :: cs') lf' rt')
  | .star p, lf, rt, cs, k => starG fl p lf rt (fun lf' rt' => k cs lf' rt')
  | .plus p, lf, rt, cs, k =>
    match rt with
    | c :: rt' =>
      if clsM fl p c then starG fl p (c :: lf) rt' (fun lf' rt' => k cs lf' rt')
      else none
    | [] => none
  | .lazyplus p, lf, rt, cs, k =>
    match rt with
    | c :: rt' =>
      if clsM fl p c then lazyGo fl p (c :: lf) rt' (fun lf' rt' => k cs lf' rt')
      else none
    | [] => none
  | .rep p lo hi, lf, rt, cs, k => repG fl p lo hi lf rt (fun lf' rt' => k cs lf' rt')
  | .wordb, lf, rt, cs, k =>
    let wl := match lf with | c :: _ => isWordChar c | [] => false
    let wr := match rt with | c :: _ => isWordChar c | [] => false
    if wl ≠ wr then k cs lf rt else none
  | .bol, lf, rt, cs, k =>
    match lf with
    | [] => k cs lf rt
    | c :: _ => if fl.ml && c = '\n' then k cs lf rt else none
  | .eol, lf, rt, cs, k =>
    match rt with
    | [] => k cs lf rt
    | c :: rt' =>
      if c = '\n' && (fl.ml || rt' = []) then k cs lf rt else none
  | .eos, lf, rt, cs, k => match rt with | [] => k cs lf rt | _ :: _ => none

/-- Scan for the leftmost match (`re.search`); returns
(start index, end index, captures). -/
def searchGo (fl : RFlags) (r : Re) (lf : Str) : Str → Option (Nat × Nat × Caps)
  | [] =>
    match mtch fl r lf [] [] (fun cs lf' rt' => some (cs, lf', rt')) with
    | some (cs, lf', _) => some (lf.length, lf'.length, cs)
    | none => none
  | c :: rt' =>
    match mtch fl r lf (c :: rt') [] (fun cs lf' rt' => some (cs, lf', rt')) with
    | some (cs, lf', _) => some (lf.length, lf'.length, cs)
    | none => searchGo fl r (c :: lf) rt'

def research (fl : RFlags) (r : Re) (s : Str) : Option (Nat × Nat × Caps) :=
  searchGo fl r [] s

/-- Value of group `i` (empty when the group did not participate, matching
`clean(m.group(i))` on a `None` group). -/
def capGet (cs : Caps) (i : Nat) : Str :=
  ((cs.find? (fun x => x.1 = i)).map (fun x => x.2)).getD []

def capHas (cs : Caps) (i : Nat) : Bool :=
  (cs.find? (fun x => x.1 = i)).isSome

/-- Python `re.sub(r, repl, ·)` scan with fuel (the initial fuel
`len + 1` suffices because the matcher only consumes text). -/
def subFuel (fl : RFlags) (r : Re) (repl : Str) : Nat → Str → Str → Str
  | 0, _, rt => rt
  | fuel + 1, lf, rt =>
    match mtch fl r lf rt [] (fun cs lf' rt' => some (cs, lf', rt')) with
    | some (_, lf', rt') =>
      if lf'.length = lf.length then
        match rt with
        | [] => repl
        | c :: rt2 => repl ++ c :: subFuel fl r repl fuel (c :: lf) rt2
      else repl ++ subFuel fl r repl fuel lf' rt'
    | none =>
      match rt with
      | [] => []
      | c :: rt2 => c :: subFuel fl r repl fuel (c :: lf) rt2

def reSub (fl : RFlags) (r : Re) (repl s : Str) : Str :=
  subFuel fl r repl (s.length + 1) [] s

-- -------------------------
-- Character classes and the program's patterns
-- -------------------------

def spC : Char → Bool := pyIsSpace
def nonNl : Char → Bool := fun c => c != '\n'
def digitC : Char → Bool := fun c => c.isDigit
def alphaC : Char → Bool := fun c => c.isAlpha

/-- The source file's bullet glyph literal (three characters). -/
def BULL : Str := ['\u00E2', '\u20AC', '\u00A2']

/-- The source file's second glyph: U+00E2 followed by a no-break space. -/
def ANB : Str := ['\u00E2', '\u00A0']

/-- Bullet item prefix used by the report builder. -/
def PRE : Str := BULL ++ ANB ++ [' ', ' '] ++ ANB

def reRSGMP_UNHAS : Re := cat [strRe "RSGMP", .star spC, strRe "UNHAS"]

def reRSGMP_any : Re :=
  Re.grp 1 (cat [strRe "RSGMP", .plus (fun c => c != '\n' && c != '/')])

def reIdent1 : Re :=
  cat [.lit '\n', .star spC,
       .grp 1 (cat [.rep alphaC 1 4, .lit '.', .star spC, .plus nonNl, .lit '/',
                    .star spC, .cls (fun c => c = 'L' || c = 'P'), .star spC,
                    .lit '/', .plus nonNl]),
       .lit '\n']

def reIdent2 : Re :=
  cat [.bol,
       .grp 1 (Re.alt (strRe "Tn.") (Re.alt (strRe "Ny.") (strRe "An."))),
       .plus nonNl]

def reRM1 : Re :=
  cat [strRe "RM", .opt (.lit '.'), .star spC,
       .grp 1 (.plus (fun c => c.isDigit || c = '.'))]

def reRM2 : Re :=
  cat [strRe "RM", .star spC, .grp 1 (.plus (fun c => c.isDigit || c = '.'))]

def reSstart : Re := cat [.wordb, .lit 'S', .star spC, .lit ':', .star spC]
def reSend : Re := cat [.lit '\n', .star spC, .lit 'O', .star spC, .lit ':', .star spC]
def reOstart : Re := cat [.wordb, .lit 'O', .star spC, .lit ':', .star spC]
def reOend : Re := cat [.lit '\n', .star spC, .lit 'A', .star spC, .lit ':', .star spC]
def reAstart : Re := cat [.wordb, .lit 'A', .star spC, .lit ':', .star spC]
def reAend : Re := cat [.lit '\n', .star spC, .lit 'P', .star spC, .lit ':', .star spC]

def reGenStart : Re :=
  cat [strRe "Status", .plus spC, strRe "Generalis", .star spC, .lit ':', .star spC]

def reLokStart : Re :=
  cat [strRe "Status", .plus spC, strRe "Lokalis", .star spC, .lit ':']

def reGenEnd2 : Re :=
  cat [.lit '\n', .star spC,
       .grp 1 (Re.alt (cat [strRe "Status", .plus spC, strRe "Lokalis"])
                 (Re.alt (cat [strRe "EO", .star spC, .lit ':'])
                   (cat [.lit 'E', .opt (.lit '.'), .lit 'O', .star spC, .lit ':']))),
       .star spC]

def reBB : Re :=
  cat [.wordb, strRe "BB", .star spC, .opt (.lit ':'), .star spC,
       .grp 1 (cat [.plus digitC, .opt (cat [.lit '.', .plus digitC])]),
       .star spC, strRe "kg"]

def reTB : Re :=
  cat [.wordb, strRe "TB", .star spC, .opt (.lit ':'), .star spC,
       .grp 1 (cat [.plus digitC, .opt (cat [.lit '.', .plus digitC])]),
       .star spC, strRe "cm"]

def reEOs : Re := cat [.wordb, strRe "EO", .star spC, .lit ':', .star spC]
def reEOe : Re := cat [.lit '\n', .star spC, strRe "IO", .star spC, .lit ':', .star spC]
def reEOs2 : Re := cat [.wordb, .lit 'E', .opt (.lit '.'), .lit 'O', .star spC, .lit ':', .star spC]
def reEOe2 : Re := cat [.lit '\n', .star spC, .lit 'I', .opt (.lit '.'), .lit 'O', .star spC, .lit ':', .star spC]
def reIOs : Re := cat [.wordb, strRe "IO", .star spC, .lit ':', .star spC]

def reIOe : Re :=
  cat [.lit '\n', .star spC,
       .grp 1 (Re.alt (strRe "Pemeriksaan")
                 (Re.alt (cat [.lit 'A', .star spC, .lit ':']) Re.eol))]

def reIOs2 : Re := cat [.wordb, .lit 'I', .opt (.lit '.'), .lit 'O', .star spC, .lit ':', .star spC]

def rePenStart : Re :=
  cat [strRe "Pemeriksaan", .plus spC, strRe "Penunjang", .star spC, .opt (.lit ':'), .star spC]

def reResiden : Re :=
  cat [strRe "Residen", .star spC, .opt (.lit ':'), .star spC, .grp 1 (.plus nonNl)]

def reDPJP : Re :=
  cat [strRe "DPJP", .star spC, .opt (.lit ':'), .star spC, .grp 1 (.plus nonNl)]

def reBulletLead : Re := cat ([Re.bol] ++ BULL.map Re.lit ++ [Re.star spC])

def reSpTabNl : Re := cat [.plus (fun c => c = ' ' || c = '\t'), .lit '\n']

def rePstart : Re := cat [.wordb, .lit 'P', .star spC, .lit ':', .star spC]

def rePend : Re :=
  cat [.lit '\n', .star spC,
       .grp 1 (Re.alt (strRe "Izin")
                 (Re.alt (strRe "Mohon") (Re.alt (strRe "Residen") (strRe "DPJP")))),
       .star spC, .lit ':', .star spC]

def reProTok : Re := cat [.wordb, strRe "Pro", .wordb]

def reProLine : Re :=
  cat [.wordb, strRe "Pro", .wordb, .star spC, .grp 1 (.lazyplus nonNl), .star spC,
       Re.alt (cat [strRe "dalam", .plus spC,
                    .grp 2 (.plus (fun c => c != '\n' && c != '(' && c != ')'))])
         (Re.alt (.lit '(') Re.eol)]

def reMenunggu : Re :=
  cat [.star spC, strRe "menunggu", .plus spC, strRe "penjadwalan", .opt (.lit '.'), Re.eol]

def rePadaHari : Re :=
  cat [.star spC, strRe "pada", .plus spC, strRe "hari", .plus spC, .plus nonNl, Re.eol]

def rePukul : Re := cat [.star spC, strRe "Pukul", .plus spC, .plus nonNl, Re.eol]

def reDi : Re := cat [.star spC, strRe "di", .plus spC, .plus nonNl, Re.eol]

def reLabDate : Re :=
  cat [.lit '(', .star spC,
       .grp 1 (cat [.rep digitC 1 2, .lit '/', .rep digitC 1 2, .lit '/', .rep digitC 4 4]),
       .star spC, .lit ')']

def labKeyRe (k : Str) : Re :=
  cat ([Re.wordb] ++ k.map Re.lit ++
       [Re.wordb, .star spC, .cls (fun c => c = ':' || c = ' '), .star spC,
        .grp 1 (.plus nonNl)])

-- -------------------------
-- Small helpers of the source (clean, pick1, pick_block, ...)
-- -------------------------

/-- Source `clean`: `(s or "").strip()`. -/
def clean (s : Str) : Str := pyStrip s

/-- Source `pick1`: first match's group 1, cleaned; empty on no match. -/
def pick1 (text : Str) (r : Re) (fl : RFlags) : Str :=
  match research fl r text with
  | some (_, _, cs) => clean (capGet cs 1)
  | none => []

/-- Source `pick_block` (always IGNORECASE | DOTALL): text between the end of
the start match and the start of the end match (or end of text), cleaned. -/
def pick_block (text : Str) (start_pat end_pat : Re) : Str :=
  match research icFl start_pat text with
  | none => []
  | some (_, e1, _) =>
    let tl := text.drop e1
    let e2 := match research icFl end_pat tl with
      | some (s2, _, _) => s2
      | none => tl.length
    clean (tl.take e2)

/-- Source `normalize_bullets`. -/
def normalize_bullets (s : Str) : Str :=
  if s = [] then []
  else
    let s1 := pyReplace (BULL ++ ANB) BULL s
    let s2 := pyReplace (BULL ++ [' '] ++ ANB) (BULL ++ [' ']) s1
    let s3 := pyReplace (BULL ++ ANB ++ [' ', ' '] ++ ANB) (BULL ++ [' ']) s2
    pyStrip (reSub noFl reSpTabNl ['\n'] s3)

/-- Source `split_residen_text`. -/
def split_residen_text (s : Str) : Str :=
  if s = [] then []
  else
    let s1 := pyReplace ['\n'] [','] s
    let parts := ((List.splitOn ',' s1).map pyStrip).filter (fun p => p ≠ [])
    List.intercalate (sl ", ") parts

-- -------------------------
-- Derived-value calculators
-- -------------------------

/-- Source `minus_minutes`.  Lean's `%` and `/` on `Int` are Euclidean; they
coincide with Python's floor `%` and `//` here because the divisors 1440 and
60 are positive and the dividend of the `// 60`, `% 60` steps is already
non-negative. -/
def minus_minutes (h mi minutes : Int) : Int × Int :=
  let total := (h * 60 + mi - minutes) % 1440
  (total / 60, total % 60)

/-- Source `maintenance_ml_per_hr_421` (floats modelled as rationals). -/
def maintenance_ml_per_hr_421 (weight_kg : ℚ) : ℚ :=
  let w := max 0 weight_kg
  if w ≤ 10 then 4 * w
  else if w ≤ 20 then 40 + 2 * (w - 10)
  else 60 + 1 * (w - 20)

/-- Python `round` (banker's rounding, half to even), computed on the
numerator and denominator: with f = ⌊q⌋, the fractional part q − f compares
to 1/2 as 2·(num − f·den) compares to den. -/
def pyRound (q : ℚ) : ℤ :=
  let f := q.num / (q.den : ℤ)
  let r2 := 2 * (q.num - f * (q.den : ℤ))
  if r2 < (q.den : ℤ) then f
  else if (q.den : ℤ) < r2 then f + 1
  else if f % 2 = 0 then f else f + 1

/-- Source `tpm_from_ml_per_hr`.  An argument for which Python's numeric
conversion (`float` / `int`) would raise is modelled as `none`; the
`try/except` then yields 0. -/
def tpm_from_ml_per_hr (ml_per_hr : Option ℚ) (drip_factor_gtt_per_ml : Option ℤ) : ℤ :=
  match ml_per_hr, drip_factor_gtt_per_ml with
  | some m, some d => pyRound (m * d / 60)
  | _, _ => 0

-- -------------------------
-- Tindakan from P block (source `tindakan_from_p_block`)
-- -------------------------

/-- The P section block: first delimited by the Izin/Mohon/Residen/DPJP
labels, falling back to end of text, then bullet-normalized. -/
def p_block_of (raw : Str) : Str :=
  let pb0 := pick_block raw rePstart rePend
  normalize_bullets (if pb0 = [] then pick_block raw rePstart Re.eos else pb0)

/-- Non-blank stripped lines of the P block that contain the token `Pro`. -/
def pro_lines_of (raw : Str) : List Str :=
  (((pySplitlines (p_block_of raw)).map pyStrip).filter (fun l => l ≠ [])).filter
    (fun ln => (research icFl reProTok ln).isSome)

/-- Per-line extraction (source lines 310–324): strip a leading bullet, match
the `Pro ... (dalam ...)` pattern, then strip trailing boilerplate from the
procedure text. -/
def proLineExtract (last0 : Str) : Str × Str :=
  let last := reSub noFl reBulletLead [] last0
  match research icFl reProLine last with
  | none => ([], [])
  | some (_, _, cs) =>
    let tindakan := clean (capGet cs 1)
    let anest := if capHas cs 2 then clean (capGet cs 2) else []
    let t1 := pyStrip (reSub icFl reMenunggu [] tindakan)
    let t2 := pyStrip (reSub icFl rePadaHari [] t1)
    let t3 := pyStrip (reSub icFl rePukul [] t2)
    let t4 := pyStrip (reSub icFl reDi [] t3)
    (t4, anest)

/-- Source `tindakan_from_p_block`. -/
def tindakan_from_p_block (raw : Str) : Str × Str :=
  if p_block_of raw = [] then ([], [])
  else
    match (pro_lines_of raw).getLast? with
    | none => ([], [])
    | some last0 => proLineExtract last0

-- -------------------------
-- Lab block to items (source `lab_block_to_items`)
-- -------------------------

def labKeys : List Str :=
  [sl "WBC", sl "RBC", sl "HGB", sl "HCT", sl "PLT", sl "aPTT", sl "PT",
   sl "INR", sl "CT", sl "BT", sl "GDS", sl "HBsAg", sl "Kesan"]

/-- Synthesized heading line, with the parenthesized date when found. -/
def labHead (t : Str) : Str :=
  let tgl := pick1 t reLabDate noFl
  if tgl ≠ [] then sl "Lab darah (" ++ tgl ++ sl ")" else sl "Lab darah"

/-- Formatted `key : value` line for one key, when the key is found. -/
def labLine (t : Str) (k : Str) : Option Str :=
  match research icFl (labKeyRe k) t with
  | some (_, _, cs) =>
    some (if k.map pyLowerC = sl "kesan" then sl "Kesan : " ++ clean (capGet cs 1)
          else k ++ sl " : " ++ clean (capGet cs 1))
  | none => none

/-- One step of the source's key loop: append the formatted line when the
key is found. -/
def appendIfFound {α β : Type} (f : α → Option β) (acc : List β) (k : α) : List β :=
  match f k with
  | some line => acc ++ [line]
  | none => acc

/-- Source `lab_block_to_items`. -/
def lab_block_to_items (lab_text : Str) : List Str :=
  let t0 := clean lab_text
  if t0 = [] then []
  else
    let t := normalize_bullets t0
    labKeys.foldl (appendIfFound (labLine t)) [labHead t]

-- -------------------------
-- The Field Model (source dataclass `ParsedSoap`)
-- -------------------------

structure ParsedSoap where
  sapaan : Str := sl "Assalamualaikum, Dokter."
  pembuka : Str := sl "Maaf mengganggu. Izin melaporkan pasien"
  jenis_laporan : Str := []
  rs : Str := sl "RSGMP UNHAS"
  ident_line : Str := []
  nama : Str := []
  jk : Str := []
  umur : Str := []
  pembiayaan : Str := []
  jenis_perawatan : Str := []
  kamar : Str := []
  rm : Str := []
  bb : ℚ := 0
  tb : ℚ := 0
  tindakan_guess : Str := []
  anestesi_guess : Str := []
  minlap_penunjang_raw : Str := []
  minlap_jam_operasi : Str := []
  minlap_zona_waktu : Str := []
  dpjp_anestesi : Str := []
  sirkuler : Str := []
  S : Str := []
  O_generalis : Str := []
  EO : Str := []
  IOtext : Str := []
  penunjang_items : List Str := []
  A : Str := []
  residen : Str := []
  dpjp : Str := []
deriving DecidableEq, Repr

-- -------------------------
-- Raw SOAP parsing (source `parse_raw_soap`)
-- -------------------------

/-- Identity line: the slashed-line pattern, falling back to the
`Tn./Ny./An.` prefix pattern. -/
def identOf (raw : Str) : Str :=
  let i := pick1 raw reIdent1 icFl
  if i = [] then pick1 raw reIdent2 icmlFl else i

/-- Non-empty stripped `/`-separated segments of the identity line. -/
def partsOf (ident : Str) : List Str :=
  ((List.splitOn '/' ident).map pyStrip).filter (fun x => x ≠ [])

/-- First-seen case-insensitive dedup of the penunjang items
(Python's `seen` set loop). -/
def dedupeLowGo (seen : List Str) (acc : List Str) : List Str → List Str
  | [] => acc.reverse
  | it :: t =>
    let k := it.map pyLowerC
    if seen.contains k then dedupeLowGo seen acc t
    else dedupeLowGo (k :: seen) (it :: acc) t

def parse_raw_soap (raw0 : Str) : ParsedSoap :=
  let raw := pyStrip raw0
  let first_line := match pySplitlines raw with | [] => ([] : Str) | l :: _ => pyStrip l
  let sapaan := if lstarts (sl "assalamualaikum") (first_line.map pyLowerC)
    then first_line else sl "Assalamualaikum, Dokter."
  let rs :=
    if (research icFl reRSGMP_UNHAS raw).isSome then sl "RSGMP UNHAS"
    else
      let rs_guess := pick1 raw reRSGMP_any icFl
      if rs_guess ≠ [] then rs_guess else sl "RSGMP UNHAS"
  let ident := identOf raw
  let parts := partsOf ident
  let nama := if ident ≠ [] then
      (match parts with
       | [] => ([] : Str)
       | a :: _ => pyStrip (pyReplace (sl "An.") (sl "An.") a))
    else []
  let jk := if ident ≠ [] ∧ 2 ≤ parts.length then (parts.get? 1).getD [] else []
  let umur := if ident ≠ [] ∧ 3 ≤ parts.length then (parts.get? 2).getD [] else []
  let pembiayaan := if ident ≠ [] ∧ 4 ≤ parts.length then (parts.get? 3).getD [] else []
  let jenis_perawatan := if ident ≠ [] then
      (match parts.get? 4 with
       | some p4 => if containsSub (sl "rawat") (p4.map pyLowerC) then p4 else []
       | none => [])
    else []
  let kamar := if ident ≠ [] then
      parts.foldl (fun acc part => if lstarts (sl "kamar") (part.map pyLowerC) then part else acc) []
    else []
  let rm := if ident ≠ [] then
      (let r1 := pick1 raw reRM1 icFl
       if r1 = [] then pick1 raw reRM2 icFl else r1)
    else []
  let S := pick_block raw reSstart reSend
  let o_block := pick_block raw reOstart reOend
  let A0 := pick_block raw reAstart reAend
  let O_generalis :=
    let g := normalize_bullets (pick_block o_block reGenStart reLokStart)
    if g = [] then normalize_bullets (pick_block o_block reGenStart reGenEnd2) else g
  let bb_txt := pick1 o_block reBB icFl
  let tb_txt := pick1 o_block reTB icFl
  let bb := if bb_txt ≠ [] then parseDecQ bb_txt else 0
  let tb := if tb_txt ≠ [] then parseDecQ tb_txt else 0
  let EOv :=
    let e := normalize_bullets (pick_block o_block reEOs reEOe)
    if e = [] then normalize_bullets (pick_block o_block reEOs2 reEOe2) else e
  let IOv :=
    let i := normalize_bullets (pick_block o_block reIOs reIOe)
    if i = [] then normalize_bullets (pick_block o_block reIOs2 reIOe) else i
  let pen_block := normalize_bullets (pick_block raw rePenStart reOend)
  let penunjang_items :=
    if pen_block ≠ [] then
      dedupeLowGo [] []
        ((((pySplitlines pen_block).map pyStrip).filter (fun l => l ≠ [])).map
          (fun l => reSub noFl reBulletLead [] l))
    else []
  let residen := split_residen_text (pick1 raw reResiden icFl)
  let dpjp := clean (pick1 raw reDPJP icFl)
  let A := normalize_bullets A0
  let tg := tindakan_from_p_block raw
  { sapaan := sapaan, rs := rs, ident_line := ident, nama := nama, jk := jk, umur := umur,
    pembiayaan := pembiayaan, jenis_perawatan := jenis_perawatan, kamar := kamar, rm := rm,
    bb := bb, tb := tb, tindakan_guess := tg.1, anestesi_guess := tg.2,
    S := S, O_generalis := O_generalis, EO := EOv, IOtext := IOv,
    penunjang_items := penunjang_items, A := A, residen := residen, dpjp := dpjp }

-- -------------------------
-- Dates and the report builder (source `day_name_id`, `fmt_ddmmyyyy`,
-- `build_preop`)
-- -------------------------

structure PyDate where
  year : Nat
  month : Nat
  day : Nat
deriving DecidableEq, Repr

/-- Gregorian weekday, 0 = Sunday (Sakamoto's method). -/
def weekdayNum (d : PyDate) : Nat :=
  let t : List Nat := [0, 3, 2, 5, 0, 3, 5, 1, 4, 6, 2, 4]
  let y := if d.month < 3 then d.year - 1 else d.year
  (y + y / 4 - y / 100 + y / 400 + ((t.get? (d.month - 1)).getD 0) + d.day) % 7

/-- English weekday name (`strftime("%A")` under the C locale). -/
def weekdayName (d : PyDate) : Str :=
  ((([sl "Sunday", sl "Monday", sl "Tuesday", sl "Wednesday", sl "Thursday",
      sl "Friday", sl "Saturday"] : List Str).get? (weekdayNum d)).getD [])

def DAY_ID : List (Str × Str) :=
  [(sl "Monday", sl "Senin"), (sl "Tuesday", sl "Selasa"), (sl "Wednesday", sl "Rabu"),
   (sl "Thursday", sl "Kamis"), (sl "Friday", sl "Jumat"), (sl "Saturday", sl "Sabtu"),
   (sl "Sunday", sl "Minggu")]

/-- Source `day_name_id`: localized weekday name with pass-through fallback. -/
def day_name_id (d : PyDate) : Str :=
  let n := weekdayName d
  (((DAY_ID.find? (fun x => x.1 = n)).map (fun x => x.2)).getD n)

def natDigits (n : Nat) : Str := Nat.toDigits 10 n

def pad2 (n : Nat) : Str := if n < 10 then '0' :: natDigits n else natDigits n

def pad4 (n : Nat) : Str := List.replicate (4 - (natDigits n).length) '0' ++ natDigits n

/-- Source `fmt_ddmmyyyy` (`strftime("%d/%m/%Y")`). -/
def fmt_ddmmyyyy (d : PyDate) : Str :=
  pad2 d.day ++ sl "/" ++ pad2 d.month ++ sl "/" ++ pad4 d.year

/-- Source `build_preop`.  The long `+` chain of the source is grouped here
around `pen_block` (string concatenation is associative). -/
def build_preop (p : ParsedSoap) (tanggal_laporan tanggal_operasi : PyDate)
    (jam_operasi zona_waktu tindakan_line anestesi pembiayaan jenis_perawatan kamar : Str)
    (penunjang_items : List Str) (penunjang_raw : Str) (plan_items : List Str)
    (meds_items : Option (List Str)) (residen dpjp : Str) : Str :=
  let hari_lap := day_name_id tanggal_laporan
  let hari_op := day_name_id tanggal_operasi
  let header := p.sapaan ++ sl "\n" ++ p.pembuka ++ sl " pasien Rencana Operasi " ++ p.rs
      ++ sl " (" ++ hari_lap ++ sl ", " ++ fmt_ddmmyyyy tanggal_laporan ++ sl ")\n\n"
  let ident := p.nama ++ sl " / " ++ p.jk ++ sl " / " ++ p.umur ++ sl " / " ++ pembiayaan
      ++ sl " / " ++ jenis_perawatan ++ sl " / " ++ kamar ++ sl " / " ++ p.rs ++ sl " / RM "
      ++ p.rm ++ sl "\n\n"
  let pen_block :=
    if clean penunjang_raw ≠ [] then pyRstrip (clean penunjang_raw) ++ sl "\n\n"
    else if penunjang_items ≠ [] then
      sl "Pemeriksaan penunjang :\n"
        ++ List.intercalate (sl "\n") (penunjang_items.map (fun it => PRE ++ it)) ++ sl "\n\n"
    else []
  let A_text0 := pyStrip p.A
  let A_text := if A_text0 ≠ [] && !(lstarts BULL (pyLstrip A_text0)) then PRE ++ A_text0
    else A_text0
  let P_block := List.intercalate (sl "\n")
      ((plan_items.filter (fun x => clean x ≠ [])).map (fun x => PRE ++ x))
  let tindakan_final := PRE ++ sl "Pro " ++ tindakan_line ++ sl " dalam " ++ anestesi
      ++ sl " pada hari " ++ hari_op ++ sl ", " ++ fmt_ddmmyyyy tanggal_operasi
      ++ sl " Pukul " ++ jam_operasi ++ sl " " ++ zona_waktu ++ sl " di " ++ p.rs
  let meds_block := match meds_items with
    | none => ([] : Str)
    | some mi =>
      if mi ≠ [] then
        (let meds_lines := (mi.map clean).filter (fun x => x ≠ [])
         if meds_lines ≠ [] then
           sl "\nMedikasi:\n"
             ++ List.intercalate (sl "\n") (meds_lines.map (fun x => PRE ++ x)) ++ sl "\n"
         else [])
      else []
  let pre_pen := header ++ ident ++ sl "S: " ++ p.S ++ sl "\n\n" ++ sl "O:\n"
      ++ sl "Status Generalis:\n"
      ++ (if p.O_generalis ≠ [] then p.O_generalis ++ sl "\n\n" else [])
      ++ sl "Status Lokalis:\n" ++ sl "EO:\n"
      ++ (if p.EO ≠ [] then p.EO ++ sl "\n\n" else [])
      ++ sl "IO:\n"
      ++ (if p.IOtext ≠ [] then p.IOtext ++ sl "\n\n" else [])
  let post_pen := sl "A:\n" ++ (if A_text ≠ [] then A_text ++ sl "\n\n" else [])
      ++ sl "P:\n" ++ P_block ++ sl "\n" ++ tindakan_final ++ sl "\n\n" ++ meds_block
      ++ sl "Mohon instruksi selanjutnya, Dokter.\n" ++ sl "Terima kasih.\n\n"
      ++ sl "Residen: " ++ residen ++ sl "\n\n" ++ sl "DPJP: " ++ dpjp ++ sl "\n"
  pre_pen ++ (if pen_block ≠ [] then pen_block else []) ++ post_pen

-- -------------------------
-- Shared lemmas
-- -------------------------

theorem pick1_none {fl : RFlags} {r : Re} {t : Str} (h : research fl r t = none) :
    pick1 t r fl = [] := by
  simp [pick1, h]

theorem pick_block_none {sp : Re} {t : Str} (h : research icFl sp t = none)
    (ep : Re) : pick_block t sp ep = [] := by
  simp [pick_block, h]

theorem foldl_append_filterMap {α β : Type} (f : α → Option β) :
    ∀ (ks : List α) (init : List β),
      ks.foldl (appendIfFound f) init = init ++ ks.filterMap f := by
  intro ks
  induction ks with
  | nil => intro init; simp
  | cons k t ih =>
    intro init
    cases hf : f k <;> simp [appendIfFound, List.filterMap_cons, hf, ih]

-- -------------------------
-- Claims
-- -------------------------

/-- C5: for every hour 0–23, minute 0–59 and offset N, `minus_minutes`
returns the hour/minute pair of (h*60 + m − N) modulo 1440, wrapping across
midnight; in particular (8,0) − 360 min = (2,0) and (0,30) − 60 min =
(23,30). -/
theorem minus_minutes_spec :
    (∀ h mi n : Int, 0 ≤ h → h ≤ 23 → 0 ≤ mi → mi ≤ 59 →
      minus_minutes h mi n
          = (((h * 60 + mi - n) % 1440) / 60, ((h * 60 + mi - n) % 1440) % 60)
        ∧ 0 ≤ (minus_minutes h mi n).1 ∧ (minus_minutes h mi n).1 ≤ 23
        ∧ 0 ≤ (minus_minutes h mi n).2 ∧ (minus_minutes h mi n).2 ≤ 59
        ∧ (minus_minutes h mi n).1 * 60 + (minus_minutes h mi n).2
            = (h * 60 + mi - n) % 1440) ∧
    minus_minutes 8 0 360 = (2, 0) ∧ minus_minutes 0 30 60 = (23, 30) := by
  refine ⟨?_, by decide, by decide⟩
  intro h mi n h0 h1 h2 h3
  have e1 : (minus_minutes h mi n).1 = ((h * 60 + mi - n) % 1440) / 60 := rfl
  have e2 : (minus_minutes h mi n).2 = ((h * 60 + mi - n) % 1440) % 60 := rfl
  refine ⟨rfl, ?_, ?_, ?_, ?_, ?_⟩ <;> simp only [e1, e2] <;> omega

/-- C5 witness at (8, 0, 360). -/
theorem minus_minutes_spec_witness :
    minus_minutes 8 0 360
      = ((((8 : Int) * 60 + 0 - 360) % 1440) / 60,
         (((8 : Int) * 60 + 0 - 360) % 1440) % 60) :=
  (minus_minutes_spec.1 8 0 360 (by decide) (by decide) (by decide) (by decide)).1

/-- C6: the 4-2-1 maintenance-fluid rule: 4·w for 0 ≤ w ≤ 10, 40 + 2·(w−10)
for 10 < w ≤ 20, 60 + (w−20) for w > 20, clamped to 0 for negative weight; in
particular the rate at 25 kg is 65 mL/hr. -/
theorem maintenance_421_spec :
    (∀ w : ℚ, 0 ≤ w → w ≤ 10 → maintenance_ml_per_hr_421 w = 4 * w) ∧
    (∀ w : ℚ, 10 < w → w ≤ 20 → maintenance_ml_per_hr_421 w = 40 + 2 * (w - 10)) ∧
    (∀ w : ℚ, 20 < w → maintenance_ml_per_hr_421 w = 60 + (w - 20)) ∧
    (∀ w : ℚ, w ≤ 0 → maintenance_ml_per_hr_421 w = 0) ∧
    maintenance_ml_per_hr_421 25 = 65 := by
  refine ⟨?_, ?_, ?_, ?_, by norm_num [maintenance_ml_per_hr_421]⟩
  · intro w h0 h10
    simp only [maintenance_ml_per_hr_421]
    rw [max_eq_right h0, if_pos h10]
  · intro w h10 h20
    simp only [maintenance_ml_per_hr_421]
    rw [max_eq_right (by linarith), if_neg (by simpa using h10.not_le), if_pos h20]
  · intro w h20
    simp only [maintenance_ml_per_hr_421]
    rw [max_eq_right (by linarith), if_neg (by simpa using (by linarith : ¬ w ≤ 10)),
        if_neg (by simpa using h20.not_le)]
    ring
  · intro w h0
    simp only [maintenance_ml_per_hr_421]
    rw [max_eq_left h0, if_pos (by norm_num)]
    ring

/-- C6 witness at 5, 15, 25 and −3 kg. -/
theorem maintenance_421_spec_witness :
    maintenance_ml_per_hr_421 5 = 4 * 5 ∧
    maintenance_ml_per_hr_421 15 = 40 + 2 * (15 - 10) ∧
    maintenance_ml_per_hr_421 25 = 60 + (25 - 20) ∧
    maintenance_ml_per_hr_421 (-3) = 0 :=
  ⟨maintenance_421_spec.1 5 (by norm_num) (by norm_num),
   maintenance_421_spec.2.1 15 (by norm_num) (by norm_num),
   maintenance_421_spec.2.2.1 25 (by norm_num),
   maintenance_421_spec.2.2.2.1 (-3) (by norm_num)⟩

/-- C7: `tpm_from_ml_per_hr` rounds mL/hr × drip factor / 60 for numeric
input and yields 0 when an argument is not convertible to a number; in
particular 65 mL/hr at factor 20 gives 22 drops/min. -/
theorem tpm_spec :
    (∀ (m : ℚ) (d : ℤ), tpm_from_ml_per_hr (some m) (some d) = pyRound (m * d / 60)) ∧
    (∀ d, tpm_from_ml_per_hr none d = 0) ∧
    (∀ m, tpm_from_ml_per_hr m none = 0) ∧
    tpm_from_ml_per_hr (some 65) (some 20) = 22 := by
  refine ⟨fun m d => rfl, fun d => ?_, fun m => ?_, ?_⟩
  · cases d <;> rfl
  · cases m <;> rfl
  · have h : tpm_from_ml_per_hr (some 65) (some 20)
        = pyRound (65 * ((20 : ℤ) : ℚ) / 60) := rfl
    rw [h]
    norm_num [pyRound]

/-- Argument bundle of `build_preop` (for stating renderer determinism). -/
structure PreopArgs where
  p : ParsedSoap
  tanggal_laporan : PyDate
  tanggal_operasi : PyDate
  jam_operasi : Str
  zona_waktu : Str
  tindakan_line : Str
  anestesi : Str
  pembiayaan : Str
  jenis_perawatan : Str
  kamar : Str
  penunjang_items : List Str
  penunjang_raw : Str
  plan_items : List Str
  meds_items : Option (List Str)
  residen : Str
  dpjp : Str

def build_preop_call (a : PreopArgs) : Str :=
  build_preop a.p a.tanggal_laporan a.tanggal_operasi a.jam_operasi a.zona_waktu
    a.tindakan_line a.anestesi a.pembiayaan a.jenis_perawatan a.kamar
    a.penunjang_items a.penunjang_raw a.plan_items a.meds_items a.residen a.dpjp

/-- C9: the report builder is deterministic — equal argument bundles give
byte-identical output. -/
theorem build_preop_deterministic :
    ∀ a b : PreopArgs, a = b → build_preop_call a = build_preop_call b := by
  intro a b h
  rw [h]

/-- C9 witness at one concrete argument bundle. -/
theorem build_preop_deterministic_witness :
    build_preop_call ⟨{}, ⟨2024, 1, 15⟩, ⟨2024, 1, 16⟩, sl "08.00", sl "WITA",
        sl "insisi", sl "general anestesi", sl "BPJS", sl "Rawat Inap", sl "Kamar 1",
        [sl "OPG X-Ray"], [], [sl "ACC TS Anestesi"], none, sl "drg. A", sl "drg. B"⟩
      = build_preop_call ⟨{}, ⟨2024, 1, 15⟩, ⟨2024, 1, 16⟩, sl "08.00", sl "WITA",
        sl "insisi", sl "general anestesi", sl "BPJS", sl "Rawat Inap", sl "Kamar 1",
        [sl "OPG X-Ray"], [], [sl "ACC TS Anestesi"], none, sl "drg. A", sl "drg. B"⟩ :=
  build_preop_deterministic _ _ rfl

/-- C10: the maintenance-fluid rule is monotone non-decreasing, and the
adjacent branch formulas agree at the 10 kg breakpoint (40 mL/hr) and the
20 kg breakpoint (60 mL/hr), so there are no jumps. -/
theorem maintenance_421_monotone :
    (∀ w1 w2 : ℚ, w1 ≤ w2 →
        maintenance_ml_per_hr_421 w1 ≤ maintenance_ml_per_hr_421 w2) ∧
    maintenance_ml_per_hr_421 10 = 40 ∧ maintenance_ml_per_hr_421 20 = 60 ∧
    4 * (10 : ℚ) = 40 + 2 * (10 - 10) ∧
    40 + 2 * ((20 : ℚ) - 10) = 60 + (20 - 20) := by
  refine ⟨?_, by norm_num [maintenance_ml_per_hr_421],
    by norm_num [maintenance_ml_per_hr_421], by norm_num, by norm_num⟩
  intro w1 w2 h
  have h0 : max 0 w1 ≤ max 0 w2 := max_le_max le_rfl h
  have h1 : (0 : ℚ) ≤ max 0 w1 := le_max_left 0 w1
  have h2 : (0 : ℚ) ≤ max 0 w2 := le_max_left 0 w2
  simp only [maintenance_ml_per_hr_421]
  split_ifs <;> linarith

/-- C10 witness at weights 3 and 27. -/
theorem maintenance_421_monotone_witness :
    maintenance_ml_per_hr_421 3 ≤ maintenance_ml_per_hr_421 27 :=
  maintenance_421_monotone.1 3 27 (by norm_num)

/-- C1 counterexample: on the empty string the facility-name field `rs` is
the non-empty template default "RSGMP UNHAS" (likewise the greeting and the
opener), so the returned model is not all-empty and not every unmatched
field is an empty string. -/
theorem parse_raw_soap_empty_not_all_empty :
    (parse_raw_soap []).rs = sl "RSGMP UNHAS" ∧ (parse_raw_soap []).rs ≠ [] := by
  constructor <;> decide

/-- C1 amended: `parse_raw_soap` is total by construction, and fails closed:
on the empty string every extraction field of the returned model is empty (or
0 for the numeric weight/height) while the template fields `sapaan`,
`pembuka` and `rs` keep their fixed non-empty defaults; in general every
extraction field whose pattern finds no match is an empty string / empty
list. -/
theorem parse_raw_soap_fails_closed :
    ((parse_raw_soap []).nama = [] ∧ (parse_raw_soap []).jk = [] ∧
     (parse_raw_soap []).umur = [] ∧ (parse_raw_soap []).pembiayaan = [] ∧
     (parse_raw_soap []).jenis_perawatan = [] ∧ (parse_raw_soap []).kamar = [] ∧
     (parse_raw_soap []).rm = [] ∧ (parse_raw_soap []).ident_line = [] ∧
     (parse_raw_soap []).S = [] ∧ (parse_raw_soap []).O_generalis = [] ∧
     (parse_raw_soap []).EO = [] ∧ (parse_raw_soap []).IOtext = [] ∧
     (parse_raw_soap []).A = [] ∧ (parse_raw_soap []).penunjang_items = [] ∧
     (parse_raw_soap []).residen = [] ∧ (parse_raw_soap []).dpjp = [] ∧
     (parse_raw_soap []).tindakan_guess = [] ∧ (parse_raw_soap []).anestesi_guess = [] ∧
     (parse_raw_soap []).bb = 0 ∧ (parse_raw_soap []).tb = 0 ∧
     (parse_raw_soap []).sapaan = sl "Assalamualaikum, Dokter." ∧
     (parse_raw_soap []).pembuka = sl "Maaf mengganggu. Izin melaporkan pasien" ∧
     (parse_raw_soap []).rs = sl "RSGMP UNHAS") ∧
    (∀ raw : Str,
      (research icFl reIdent1 (pyStrip raw) = none →
       research icmlFl reIdent2 (pyStrip raw) = none →
        (parse_raw_soap raw).ident_line = [] ∧ (parse_raw_soap raw).nama = [] ∧
        (parse_raw_soap raw).jk = [] ∧ (parse_raw_soap raw).umur = [] ∧
        (parse_raw_soap raw).pembiayaan = [] ∧
        (parse_raw_soap raw).jenis_perawatan = [] ∧
        (parse_raw_soap raw).kamar = [] ∧ (parse_raw_soap raw).rm = []) ∧
      (research icFl reSstart (pyStrip raw) = none → (parse_raw_soap raw).S = []) ∧
      (research icFl reAstart (pyStrip raw) = none → (parse_raw_soap raw).A = []) ∧
      (research icFl reOstart (pyStrip raw) = none →
        (parse_raw_soap raw).O_generalis = [] ∧ (parse_raw_soap raw).EO = [] ∧
        (parse_raw_soap raw).IOtext = [] ∧ (parse_raw_soap raw).bb = 0 ∧
        (parse_raw_soap raw).tb = 0) ∧
      (research icFl rePenStart (pyStrip raw) = none →
        (parse_raw_soap raw).penunjang_items = []) ∧
      (research icFl reResiden (pyStrip raw) = none →
        (parse_raw_soap raw).residen = []) ∧
      (research icFl reDPJP (pyStrip raw) = none → (parse_raw_soap raw).dpjp = []) ∧
      (research icFl rePstart (pyStrip raw) = none →
        (parse_raw_soap raw).tindakan_guess = [] ∧
        (parse_raw_soap raw).anestesi_guess = [])) := by
  constructor
  · decide
  · intro raw
    refine ⟨?_, ?_, ?_, ?_, ?_, ?_, ?_, ?_⟩
    · intro h1 h2
      have hident : identOf (pyStrip raw) = [] := by simp [identOf, pick1, h1, h2]
      refine ⟨?_, ?_, ?_, ?_, ?_, ?_, ?_, ?_⟩ <;> simp [parse_raw_soap, hident]
    · intro h
      simp [parse_raw_soap, pick_block, h]
    · intro h
      simp [parse_raw_soap, pick_block, normalize_bullets, h]
    · intro h
      have hob : pick_block (pyStrip raw) reOstart reOend = [] := pick_block_none h reOend
      refine ⟨?_, ?_, ?_, ?_, ?_⟩ <;> simp [parse_raw_soap, hob] <;> decide
    · intro h
      simp [parse_raw_soap, pick_block, normalize_bullets, h]
    · intro h
      simp [parse_raw_soap, pick1, split_residen_text, h]
    · intro h
      have hp : pick1 (pyStrip raw) reDPJP icFl = [] := pick1_none h
      simp only [parse_raw_soap]
      rw [hp]
      decide
    · intro h
      have hpb : p_block_of (pyStrip raw) = [] := by
        simp [p_block_of, pick_block, normalize_bullets, h]
      constructor <;> simp [parse_raw_soap, tindakan_from_p_block, hpb]

/-- C1 witness at the input "x", where none of the extraction patterns
match. -/
theorem parse_raw_soap_fails_closed_witness :
    (parse_raw_soap (sl "x")).ident_line = [] ∧ (parse_raw_soap (sl "x")).S = [] ∧
    (parse_raw_soap (sl "x")).A = [] ∧ (parse_raw_soap (sl "x")).O_generalis = [] ∧
    (parse_raw_soap (sl "x")).penunjang_items = [] ∧
    (parse_raw_soap (sl "x")).residen = [] ∧ (parse_raw_soap (sl "x")).dpjp = [] ∧
    (parse_raw_soap (sl "x")).tindakan_guess = [] := by
  obtain ⟨hi, hs, ha, ho, hpen, hres, hdp, hp⟩ := parse_raw_soap_fails_closed.2 (sl "x")
  exact ⟨(hi (by decide) (by decide)).1, hs (by decide), ha (by decide),
    (ho (by decide)).1, hpen (by decide), hres (by decide), hdp (by decide),
    (hp (by decide)).1⟩

/-- Scenario input of the specification's end-to-end example. -/
def scenarioRaw : Str :=
  sl "Assalamualaikum\nAn. Fikri / L / 8 Tahun / BPJS / Rawat Jalan / RSGMP Unhas / RM 123\nS: demam\nO: KU baik\nA: abses\nP: Pro insisi dalam general anestesi"

set_option maxRecDepth 40000 in
/-- C2 counterexample: on the scenario input the extracted name keeps the
honorific prefix — it is "An. Fikri", not "Fikri" as the claim states (the
source's `parts[0].replace("An.", "An.")` replaces "An." with itself, a
no-op). -/
theorem scenario_name_not_Fikri :
    (parse_raw_soap scenarioRaw).nama = sl "An. Fikri" ∧
    (parse_raw_soap scenarioRaw).nama ≠ sl "Fikri" := by
  have h : (parse_raw_soap scenarioRaw).nama = sl "An. Fikri" := by decide
  exact ⟨h, by rw [h]; decide⟩

set_option maxRecDepth 40000 in
/-- C2 amended: on the scenario input the extraction yields name "An. Fikri"
(prefix retained), sex "L", age "8 Tahun", rm "123", procedure "insisi" and
anesthesia "general anestesi". -/
theorem scenario_extraction_amended :
    parse_raw_soap scenarioRaw =
      { sapaan := sl "Assalamualaikum", rs := sl "RSGMP UNHAS",
        ident_line := sl "An. Fikri / L / 8 Tahun / BPJS / Rawat Jalan / RSGMP Unhas / RM 123",
        nama := sl "An. Fikri", jk := sl "L", umur := sl "8 Tahun",
        pembiayaan := sl "BPJS", jenis_perawatan := sl "Rawat Jalan", rm := sl "123",
        S := sl "demam", A := sl "abses",
        tindakan_guess := sl "insisi", anestesi_guess := sl "general anestesi" } ∧
    tindakan_from_p_block scenarioRaw = (sl "insisi", sl "general anestesi") := by
  constructor <;> decide

set_option maxRecDepth 40000 in
/-- C3 counterexample: on "P: Pro biopsi (kista) dalam lokal anestesi" the
code returns ("biopsi", "") — the lazy capture stops at the parenthesis and no
anesthesia is captured — while the claim predicts anesthesia "lokal anestesi"
(the text following "dalam" on that Pro line). -/
theorem pro_line_paren_counterexample :
    tindakan_from_p_block (sl "P: Pro biopsi (kista) dalam lokal anestesi")
      = (sl "biopsi", []) ∧
    (tindakan_from_p_block (sl "P: Pro biopsi (kista) dalam lokal anestesi")).2
      ≠ sl "lokal anestesi" := by
  have h : tindakan_from_p_block (sl "P: Pro biopsi (kista) dalam lokal anestesi")
      = (sl "biopsi", []) := by decide
  exact ⟨h, by rw [h]; decide⟩

set_option maxRecDepth 40000 in
/-- C3 amended: `tindakan_from_p_block` selects the last P-section line
containing the token "Pro" and applies the per-line extraction
`proLineExtract` to it (procedure = lazily-shortest text after "Pro" up to
the first "dalam", "(" or line end, boilerplate suffixes then stripped;
anesthesia = text after "dalam" up to a parenthesis, empty when the match
ends at "(" or at line end); ("", "") when no Pro line exists.  The concrete
conjuncts exhibit boilerplate stripping and last-line selection. -/
theorem tindakan_p_block_amended :
    (∀ raw : Str,
      (pro_lines_of raw = [] → tindakan_from_p_block raw = ([], [])) ∧
      (∀ l ls, pro_lines_of raw = ls ++ [l] →
        tindakan_from_p_block raw = proLineExtract l)) ∧
    tindakan_from_p_block (sl "P: Pro sekuestrektomi menunggu penjadwalan")
      = (sl "sekuestrektomi", []) ∧
    tindakan_from_p_block (sl "P: Pro insisi pada hari Senin Pukul 08.00 di RSGMP")
      = (sl "insisi", []) ∧
    tindakan_from_p_block (sl "P: Pro eksisi\nPro biopsi dalam GA")
      = (sl "biopsi", sl "GA") := by
  refine ⟨?_, by decide, by decide, by decide⟩
  intro raw
  constructor
  · intro h
    by_cases hpb : p_block_of raw = [] <;> simp [tindakan_from_p_block, hpb, h]
  · intro l ls h
    have hpb : p_block_of raw ≠ [] := by
      intro he
      have hz : pro_lines_of raw = [] := by simp [pro_lines_of, he, pySplitlines]
      rw [hz] at h
      simp at h
    simp [tindakan_from_p_block, hpb, h, List.getLast?_concat]

/-- C3 witness: a text with no Pro line yields ("", ""), and a single-Pro-line
text is routed through `proLineExtract`. -/
theorem tindakan_p_block_amended_witness :
    tindakan_from_p_block (sl "x") = ([], []) ∧
    tindakan_from_p_block (sl "P: Pro biopsi dalam GA")
      = proLineExtract (sl "Pro biopsi dalam GA") :=
  ⟨(tindakan_p_block_amended.1 (sl "x")).1 (by decide),
   (tindakan_p_block_amended.1 (sl "P: Pro biopsi dalam GA")).2
     (sl "Pro biopsi dalam GA") [] (by decide)⟩

set_option maxRecDepth 40000 in
/-- C4 counterexample: a whitespace-only `penunjang_raw` (" ") is non-empty
yet does not take precedence — the output equals the output for raw = "" and
is rendered from the item list; and a raw block is not passed through exactly
as supplied: leading indentation is stripped, so "  indented" and "indented"
produce identical reports. -/
theorem penunjang_raw_precedence_counterexample :
    (build_preop {} ⟨2024, 1, 15⟩ ⟨2024, 1, 16⟩ (sl "08.00") (sl "WITA") (sl "insisi")
        (sl "general anestesi") (sl "BPJS") (sl "Rawat Inap") (sl "Kamar 1")
        [sl "OPG X-Ray"] (sl " ") [sl "ACC"] none (sl "drg. A") (sl "drg. B")
      = build_preop {} ⟨2024, 1, 15⟩ ⟨2024, 1, 16⟩ (sl "08.00") (sl "WITA") (sl "insisi")
        (sl "general anestesi") (sl "BPJS") (sl "Rawat Inap") (sl "Kamar 1")
        [sl "OPG X-Ray"] [] [sl "ACC"] none (sl "drg. A") (sl "drg. B")) ∧
    sl " " ≠ ([] : Str) ∧
    (build_preop {} ⟨2024, 1, 15⟩ ⟨2024, 1, 16⟩ (sl "08.00") (sl "WITA") (sl "insisi")
        (sl "general anestesi") (sl "BPJS") (sl "Rawat Inap") (sl "Kamar 1")
        [] (sl "  indented") [sl "ACC"] none (sl "drg. A") (sl "drg. B")
      = build_preop {} ⟨2024, 1, 15⟩ ⟨2024, 1, 16⟩ (sl "08.00") (sl "WITA") (sl "insisi")
        (sl "general anestesi") (sl "BPJS") (sl "Rawat Inap") (sl "Kamar 1")
        [] (sl "indented") [sl "ACC"] none (sl "drg. A") (sl "drg. B")) ∧
    sl "  indented" ≠ sl "indented" :=
  ⟨by decide, by decide, by decide, by decide⟩

/-- C4 amended: whenever `penunjang_raw` is non-blank (non-empty after
stripping), it takes precedence over `penunjang_items` (the output does not
depend on the item list), and the report contains the raw block with its
outer whitespace stripped — interior line formatting preserved — followed by
a blank line. -/
theorem penunjang_raw_precedence_amended :
    ∀ (p : ParsedSoap) (t1 t2 : PyDate)
      (jam zona tin an pemb jper kam : Str) (items1 items2 : List Str)
      (praw : Str) (plan : List Str) (meds : Option (List Str)) (res dp : Str),
      clean praw ≠ [] →
      build_preop p t1 t2 jam zona tin an pemb jper kam items1 praw plan meds res dp
        = build_preop p t1 t2 jam zona tin an pemb jper kam items2 praw plan meds res dp
      ∧ ∃ pre post,
          build_preop p t1 t2 jam zona tin an pemb jper kam items1 praw plan meds res dp
            = pre ++ (pyRstrip (clean praw) ++ sl "\n\n") ++ post := by
  intro p t1 t2 jam zona tin an pemb jper kam items1 items2 praw plan meds res dp h
  have hne : pyRstrip (clean praw) ++ sl "\n\n" ≠ ([] : Str) := by simp [sl]
  constructor
  · simp only [build_preop]
    rw [if_pos h, if_pos h]
  · simp only [build_preop]
    rw [if_pos h, if_pos hne]
    exact ⟨_, _, rfl⟩

/-- C4 witness at a concrete Minlap-style raw block. -/
theorem penunjang_raw_precedence_amended_witness :
    build_preop {} ⟨2024, 1, 15⟩ ⟨2024, 1, 16⟩ (sl "08.00") (sl "WITA") (sl "insisi")
        (sl "general anestesi") (sl "BPJS") (sl "Rawat Inap") (sl "Kamar 1")
        [sl "item"] (sl "Pemeriksaan penunjang :\n- OPG") [] none (sl "r") (sl "d")
      = build_preop {} ⟨2024, 1, 15⟩ ⟨2024, 1, 16⟩ (sl "08.00") (sl "WITA") (sl "insisi")
        (sl "general anestesi") (sl "BPJS") (sl "Rawat Inap") (sl "Kamar 1")
        [] (sl "Pemeriksaan penunjang :\n- OPG") [] none (sl "r") (sl "d") :=
  (penunjang_raw_precedence_amended {} ⟨2024, 1, 15⟩ ⟨2024, 1, 16⟩ (sl "08.00")
    (sl "WITA") (sl "insisi") (sl "general anestesi") (sl "BPJS") (sl "Rawat Inap")
    (sl "Kamar 1") [sl "item"] [] (sl "Pemeriksaan penunjang :\n- OPG") [] none
    (sl "r") (sl "d") (by decide)).1

set_option maxRecDepth 40000 in
/-- C8: `lab_block_to_items` returns [] on empty input; on non-blank input it
returns the synthesized heading (with the parenthesized date when detected)
followed by one "key : value" line per found key, in the fixed key-check
order `labKeys` — demonstrated concretely by an input listing PLT before WBC
whose output lists WBC first. -/
theorem lab_block_spec :
    lab_block_to_items [] = [] ∧
    (∀ t : Str, clean t ≠ [] →
      lab_block_to_items t
        = labHead (normalize_bullets (clean t))
            :: labKeys.filterMap (labLine (normalize_bullets (clean t)))) ∧
    lab_block_to_items (sl "PLT : 300\nWBC : 5")
      = [sl "Lab darah", sl "WBC : 5", sl "PLT : 300"] ∧
    lab_block_to_items (sl "(01/02/2024) HGB : 12")
      = [sl "Lab darah (01/02/2024)", sl "HGB : 12"] := by
  refine ⟨by decide, ?_, by decide, by decide⟩
  intro t h
  simp only [lab_block_to_items, if_neg h]
  rw [foldl_append_filterMap]
  simp

/-- C8 witness at a one-key lab text. -/
theorem lab_block_spec_witness :
    lab_block_to_items (sl "GDS 100")
      = labHead (normalize_bullets (clean (sl "GDS 100")))
          :: labKeys.filterMap (labLine (normalize_bullets (clean (sl "GDS 100")))) :=
  lab_block_spec.2.1 (sl "GDS 100") (by decide)
